import Mathlib

/-!
Verification of the custom Clerk signup flow.

This file gives a shallow embedding of the client-side signup/verification
logic of the repository: the zod validation schemas (`verificationSchema`,
`passwordRequirementSchemas`, `passwordSchema`, `formSchemaWithEmail`), the
random password generator `generateRandomPassword`, the collaborator-facing
operations `signup` and `verify` of the `useClerkSignupWithEmail` hook, and
the component-level submit handlers `onSignup` / `onVerification` of the
`SignupEmailUsernamePassword` component, which drive the five-state UI
state machine (`LOADING | ERROR | VERIFY_EMAIL | READY | DONE`).

The external authentication collaborator (Clerk) is modelled as a record of
outcomes, one per operation the code awaits: each call either resolves with
a result or rejects with a structured error.  JavaScript string truthiness
(an empty string is falsy) is modelled explicitly where the code relies on
it (the `a || b || c` error-message fallback chain).

zod semantics used here, for well-typed input: a `.pipe` chain stops at the
first stage that reports issues; `.refine` refinements on an object schema
still run when a field check failed (the parse is merely dirty, not
aborted), so both refinements of `formSchemaWithEmail` always execute, and
issues are collected in field order followed by refinement order.
-/

namespace Clerk

/-- A validation issue: a field path plus a human-readable message, as
produced by a zod parse. -/
structure Issue where
  path : List String
  message : String
deriving DecidableEq, Repr

/-- Issues of a single field check, all attached to that field's path. -/
def fieldIssues (field : String) (msgs : List String) : List Issue :=
  msgs.map (fun m => ⟨[field], m⟩)

/-! ### verificationSchema: z.object({ code: z.string().length(6, ...) }) -/

/-- Embeds `verificationSchema`: the code must be exactly 6 characters. -/
def verificationIssues (code : String) : List Issue :=
  if code.length = 6 then [] else [⟨["code"], "Code must be 6 characters"⟩]

/-! ### passwordSchema and its requirement stages -/

/-- The fixed special-character set of the `oneSpecial` regex
`[!@#$%^&*(),.?":\x7b\x7d|<>\-_[\]]`. -/
def specialChars : List Char := "!@#$%^&*(),.?\":\x7b\x7d|<>-_[]".toList

/-- Membership in the special-character set. -/
def isSpecialChar (c : Char) : Bool := specialChars.contains c

/-- Stage `charLength`: z.string().min(8).max(12). -/
def charLengthIssues (s : String) : List String :=
  (if s.length < 8 then ["String must contain at least 8 characters"] else [])
    ++ (if 12 < s.length then ["String must contain at most 12 characters"] else [])

/-- Stage `oneLowercase`: regex `[a-z]`. -/
def oneLowercaseIssues (s : String) : List String :=
  if s.toList.any Char.isLower then [] else ["Must contain lowercase letter"]

/-- Stage `oneUppercase`: regex `[A-Z]`. -/
def oneUppercaseIssues (s : String) : List String :=
  if s.toList.any Char.isUpper then [] else ["Must contain uppercase letter"]

/-- Stage `oneNumber`: regex `\d`. -/
def oneNumberIssues (s : String) : List String :=
  if s.toList.any Char.isDigit then [] else ["Must contain number"]

/-- Stage `oneSpecial`: regex over the fixed special-character set. -/
def oneSpecialIssues (s : String) : List String :=
  if s.toList.any isSpecialChar then [] else ["Must contain special character"]

/-- Embeds `passwordSchema`: the five requirement stages piped in order.
A zod pipeline stops at the first dirty stage, so only the first failing
stage's issues are reported. -/
def passwordIssues (s : String) : List String :=
  if charLengthIssues s = [] then
    if oneLowercaseIssues s = [] then
      if oneUppercaseIssues s = [] then
        if oneNumberIssues s = [] then oneSpecialIssues s
        else oneNumberIssues s
      else oneUppercaseIssues s
    else oneLowercaseIssues s
  else charLengthIssues s

/-! ### email and username field checks -/

/-- Characters allowed anywhere in the local part of zod's email regex. -/
def isEmailLocalChar (c : Char) : Bool :=
  c.isAlpha || c.isDigit || c = '_' || c = Char.ofNat 39 || c = '+' || c = '-' || c = '.'

/-- Characters allowed as the last local-part character (no dot, no
apostrophe) in zod's email regex. -/
def isEmailLocalLastChar (c : Char) : Bool :=
  c.isAlpha || c.isDigit || c = '_' || c = '+' || c = '-'

/-- No two consecutive dots anywhere in the address. -/
def noDoubleDot : List Char → Bool
  | [] => true
  | [_] => true
  | a :: b :: rest => !(a = '.' && b = '.') && noDoubleDot (b :: rest)

/-- Split a character list on a separator character. -/
def splitOnChar (sep : Char) : List Char → List (List Char)
  | [] => [[]]
  | c :: rest =>
    let r := splitOnChar sep rest
    if c = sep then [] :: r
    else
      match r with
      | [] => [[c]]
      | h :: t => (c :: h) :: t

/-- Local part: nonempty, every character from the local set, last
character from the restricted set. -/
def emailLocalOk (l : List Char) : Bool :=
  (match l.getLast? with
   | some c => isEmailLocalLastChar c
   | none => false)
    && l.all isEmailLocalChar

/-- A non-final domain label: nonempty, alphanumeric first character, then
alphanumerics or hyphens. -/
def domainLabelOk : List Char → Bool
  | [] => false
  | c :: rest => (c.isAlpha || c.isDigit) && rest.all (fun d => d.isAlpha || d.isDigit || d = '-')

/-- The final domain label: at least two letters. -/
def tldOk (l : List Char) : Bool :=
  decide (2 ≤ l.length) && l.all Char.isAlpha

/-- Domain: one or more labels followed by a terminal label of letters. -/
def emailDomainOk (l : List Char) : Bool :=
  let labels := splitOnChar '.' l
  decide (2 ≤ labels.length)
    && labels.dropLast.all domainLabelOk
    && (match labels.getLast? with
        | some t => tldOk t
        | none => false)

/-- Embeds zod's email format check (`z.string().email(...)`): exactly one
at-sign, a well-formed local part that does not start with a dot, no
double dots, and a well-formed domain. -/
def zodEmailOk (s : String) : Bool :=
  let cs := s.toList
  match splitOnChar '@' cs with
  | [localPart, domain] =>
    (match cs with
     | c :: _ => decide (c ≠ '.')
     | [] => false)
      && noDoubleDot cs && emailLocalOk localPart && emailDomainOk domain
  | _ => false

/-- Email field check of `formSchemaWithEmail`. -/
def emailIssues (s : String) : List String :=
  if zodEmailOk s then [] else ["Please enter a valid email address"]

/-- Username field check: z.string().min(4, ...). -/
def usernameIssues (s : String) : List String :=
  if s.length < 4 then ["Username must be at least 4 characters"] else []

/-! ### formSchemaWithEmail -/

/-- The signup form input (`FormSchemaWithEmail`). -/
structure FormData where
  email : String
  username : String
  password : String
  confirmPassword : String
  tos : Bool
deriving DecidableEq, Repr

/-- Embeds `formSchemaWithEmail`: field checks in declaration order
(email, username, password; confirmPassword and tos carry no field
checks), then the two `.refine` refinements (password/confirmPassword
match, attached to the confirmPassword path; terms of service, attached
to the tos path).  For well-typed input zod runs the refinements even
when a field check failed. -/
def formIssuesWithEmail (d : FormData) : List Issue :=
  fieldIssues "email" (emailIssues d.email)
    ++ fieldIssues "username" (usernameIssues d.username)
    ++ fieldIssues "password" (passwordIssues d.password)
    ++ (if d.password = d.confirmPassword then []
        else [⟨["confirmPassword"], "Passwords do not match"⟩])
    ++ (if d.tos then [] else [⟨["tos"], "You must accept the terms of service"⟩])

/-! ### generateRandomPassword -/

/-- The generator's fixed alphabet. -/
def characters : List Char :=
  "0123456789ABCDEFGHIJKLMNOPQRSTUVWXYZabcdefghijklmnopqrstuvwxyz~!@-#$".toList

/-- Embeds `generateRandomPassword`: 12 random 32-bit values, each mapped
to `characters[x % characters.length]` and joined.  The randomness source
is the function argument. -/
def generateRandomPassword (xs : Fin 12 → Nat) : String :=
  String.mk ((List.finRange 12).map (fun i => characters.getD (xs i % characters.length) '0'))

/-- Embeds the `defaultValues` installed by the `useSignupFormWithEmail`
hook, whose password and confirmPassword both take the one generated
password. -/
def signupFormDefaults (xs : Fin 12 → Nat) : FormData :=
  { email := "test@example.com"
    username := "testingUser"
    password := generateRandomPassword xs
    confirmPassword := generateRandomPassword xs
    tos := false }

/-! ### The external collaborator and the signup/verify operations -/

/-- A structured field error carried by a collaborator rejection; the code
reads its `longMessage` property, which may be absent. -/
structure FieldError where
  longMessage : Option String
deriving DecidableEq, Repr

/-- A collaborator rejection value (`err` in the catch blocks): it may
carry a list of structured field errors and a plain `message`; either
property may be absent. -/
structure ClerkError where
  errors : Option (List FieldError)
  message : Option String
deriving DecidableEq, Repr

/-- The outcome of one awaited collaborator call: either it resolves with
a value or it rejects with an error. -/
inductive JsOutcome (α : Type) where
  | ok (value : α)
  | thrown (err : ClerkError)
deriving DecidableEq, Repr

/-- The resource returned by `signUp.create` and
`signUp.attemptEmailAddressVerification`: a status string and an optional
created session id. -/
structure SignUpResource where
  status : String
  createdSessionId : Option String
deriving DecidableEq, Repr

/-- The collaborator, as the outcomes of the four operations the hook can
await: create, prepareEmailAddressVerification,
attemptEmailAddressVerification, and setActive. -/
structure Collaborator where
  createOutcome : JsOutcome SignUpResource
  prepareOutcome : JsOutcome Unit
  attemptOutcome : JsOutcome SignUpResource
  setActiveOutcome : JsOutcome Unit
deriving DecidableEq, Repr

/-- One collaborator call issued by the hook, with its arguments. -/
inductive ClerkCall where
  | create (emailAddress password username : String)
  | prepareEmailAddressVerification (strategy : String)
  | attemptEmailAddressVerification (code : String)
  | setActive (session : Option String)
deriving DecidableEq, Repr

/-- The result object returned by `signup` / `verify`
(`SignupResult` / `VerificationResult` in the spec): absent optional
properties are `none`. -/
structure SignupResult where
  success : Bool
  requiresVerification : Option Bool := none
  error : Option String := none
deriving DecidableEq, Repr

/-- JavaScript `a || b`: take `a` when it is a present, nonempty string,
otherwise `b`. -/
def jsOrString (a : Option String) (b : String) : String :=
  match a with
  | some v => if v = "" then b else v
  | none => b

/-- `err?.errors?.[0]?.longMessage`: the long message of the first
structured field error, when the whole chain is present. -/
def firstLongMessage (e : ClerkError) : Option String :=
  match e.errors with
  | none => none
  | some l =>
    match l.head? with
    | none => none
    | some fe => fe.longMessage

/-- The catch-block fallback chain
`err?.errors?.[0]?.longMessage || err?.message || fallback`. -/
def extractErrorMessage (e : ClerkError) (fallback : String) : String :=
  jsOrString (firstLongMessage e) (jsOrString e.message fallback)

/-- Embeds `useClerkSignupWithEmail.signup`: guard on the collaborator
being loaded, then `signUp.create`; on status `missing_requirements`
prepare email verification and report that verification is required; on
status `complete` activate the created session and report success; on any
other status report a generic failure; a rejection anywhere in the `try`
is mapped through the error-message fallback chain.  Returns the result
object together with the list of collaborator calls issued. -/
def signup (isLoaded signUpAvailable : Bool) (data : FormData) (c : Collaborator) :
    SignupResult × List ClerkCall :=
  if !isLoaded || !signUpAvailable then
    ({ success := false, error := some "Clerk not loaded" }, [])
  else
    let createCall := ClerkCall.create data.email data.password data.username
    match c.createOutcome with
    | .thrown e =>
      ({ success := false, error := some (extractErrorMessage e "Signup failed") }, [createCall])
    | .ok result =>
      if result.status = "missing_requirements" then
        match c.prepareOutcome with
        | .thrown e =>
          ({ success := false, error := some (extractErrorMessage e "Signup failed") },
            [createCall, .prepareEmailAddressVerification "email_code"])
        | .ok _ =>
          ({ success := true, requiresVerification := some true },
            [createCall, .prepareEmailAddressVerification "email_code"])
      else if result.status = "complete" then
        match c.setActiveOutcome with
        | .thrown e =>
          ({ success := false, error := some (extractErrorMessage e "Signup failed") },
            [createCall, .setActive result.createdSessionId])
        | .ok _ =>
          ({ success := true, requiresVerification := some false },
            [createCall, .setActive result.createdSessionId])
      else
        ({ success := false, error := some "Unexpected signup status" }, [createCall])

/-- Embeds `useClerkSignupWithEmail.verify`: guard on the collaborator
being loaded, then `signUp.attemptEmailAddressVerification`; on status
`complete` activate the created session and report success; on any other
status report `Verification failed`; a rejection anywhere in the `try` is
mapped through the fallback chain. -/
def verify (isLoaded signUpAvailable : Bool) (code : String) (c : Collaborator) :
    SignupResult × List ClerkCall :=
  if !isLoaded || !signUpAvailable then
    ({ success := false, error := some "Clerk not loaded" }, [])
  else
    let attemptCall := ClerkCall.attemptEmailAddressVerification code
    match c.attemptOutcome with
    | .thrown e =>
      ({ success := false, error := some (extractErrorMessage e "Verification failed") },
        [attemptCall])
    | .ok result =>
      if result.status = "complete" then
        match c.setActiveOutcome with
        | .thrown e =>
          ({ success := false, error := some (extractErrorMessage e "Verification failed") },
            [attemptCall, .setActive result.createdSessionId])
        | .ok _ =>
          ({ success := true }, [attemptCall, .setActive result.createdSessionId])
      else
        ({ success := false, error := some "Verification failed" }, [attemptCall])

/-! ### The SignupEmailUsernamePassword component state machine -/

/-- The component's `SIGNUP_STATE` union.  In the spec's vocabulary,
`READY` is Ready, `VERIFY_EMAIL` is AwaitingVerification, `DONE` is Done
and `ERROR` is Error. -/
inductive SIGNUP_STATE where
  | LOADING
  | ERROR
  | VERIFY_EMAIL
  | READY
  | DONE
deriving DecidableEq, Repr

/-- The component's local state: the `state` machine value and the stored
error text. -/
structure UIState where
  state : SIGNUP_STATE
  error : Option String
deriving DecidableEq, Repr

/-- JavaScript truthiness of the optional `requiresVerification`
property: absent is falsy. -/
def jsTruthy : Option Bool → Bool
  | some b => b
  | none => false

/-- Embeds the `onSignup` submit handler: clear the error, await
`signup`, then move to `VERIFY_EMAIL` or `DONE` on success (according to
`requiresVerification`) and to `ERROR` with the result's error text on
failure.  The signup form is rendered, and hence submittable, only in the
`READY` state. -/
def onSignup (res : SignupResult) : UIState :=
  if res.success then
    if jsTruthy res.requiresVerification then ⟨.VERIFY_EMAIL, none⟩
    else ⟨.DONE, none⟩
  else ⟨.ERROR, res.error⟩

/-- Embeds the `onVerification` submit handler: clear the error, await
`verify`, then move to `DONE` on success and to `ERROR` with the result's
error text on failure.  The verification form is rendered only in the
`VERIFY_EMAIL` state. -/
def onVerification (res : SignupResult) : UIState :=
  if res.success then ⟨.DONE, none⟩
  else ⟨.ERROR, res.error⟩

/-- The `disabled` attribute of the signup submit button:
`!signupForm.formState.isValid || isCreating`. -/
def signupSubmitDisabled (isValid isCreating : Bool) : Bool :=
  !isValid || isCreating

/-- The `disabled` attribute of the verification submit button:
`isVerifying`. -/
def verifySubmitDisabled (isVerifying : Bool) : Bool :=
  isVerifying

/-! ### Helper lemmas -/

theorem charLengthIssues_eq_nil (s : String) :
    charLengthIssues s = [] ↔ 8 ≤ s.length ∧ s.length ≤ 12 := by
  unfold charLengthIssues
  split_ifs with h1 h2 h2 <;> simp <;> omega

theorem oneLowercaseIssues_eq_nil (s : String) :
    oneLowercaseIssues s = [] ↔ s.toList.any Char.isLower = true := by
  unfold oneLowercaseIssues
  split_ifs with h
  · exact iff_of_true rfl h
  · exact iff_of_false (by simp) h

theorem oneUppercaseIssues_eq_nil (s : String) :
    oneUppercaseIssues s = [] ↔ s.toList.any Char.isUpper = true := by
  unfold oneUppercaseIssues
  split_ifs with h
  · exact iff_of_true rfl h
  · exact iff_of_false (by simp) h

theorem oneNumberIssues_eq_nil (s : String) :
    oneNumberIssues s = [] ↔ s.toList.any Char.isDigit = true := by
  unfold oneNumberIssues
  split_ifs with h
  · exact iff_of_true rfl h
  · exact iff_of_false (by simp) h

theorem oneSpecialIssues_eq_nil (s : String) :
    oneSpecialIssues s = [] ↔ s.toList.any isSpecialChar = true := by
  unfold oneSpecialIssues
  split_ifs with h
  · exact iff_of_true rfl h
  · exact iff_of_false (by simp) h

theorem path_of_mem_formIssues (d : FormData) (i : Issue) (h : i ∈ formIssuesWithEmail d) :
    i.path = ["email"] ∨ i.path = ["username"] ∨ i.path = ["password"]
      ∨ (i.path = ["confirmPassword"] ∧ d.password ≠ d.confirmPassword)
      ∨ i.path = ["tos"] := by
  unfold formIssuesWithEmail fieldIssues at h
  simp only [List.mem_append, List.mem_map] at h
  rcases h with ((((⟨m, _, rfl⟩ | ⟨m, _, rfl⟩) | ⟨m, _, rfl⟩) | h) | h)
  · exact Or.inl rfl
  · exact Or.inr (Or.inl rfl)
  · exact Or.inr (Or.inr (Or.inl rfl))
  · split_ifs at h with hm
    · simp at h
    · simp at h
      exact Or.inr (Or.inr (Or.inr (Or.inl ⟨by rw [h], hm⟩)))
  · split_ifs at h with hm
    · simp at h
    · simp at h
      exact Or.inr (Or.inr (Or.inr (Or.inr (by rw [h]))))

/-- `jsOrString` never produces the empty string when its default is
nonempty. -/
theorem jsOrString_ne_empty (a : Option String) (b : String) (hb : b ≠ "") :
    jsOrString a b ≠ "" := by
  unfold jsOrString
  cases a with
  | none => exact hb
  | some v =>
    by_cases h : v = ""
    · simpa [h] using hb
    · simp [h]

/-- The catch-block fallback chain never produces the empty string when
the fixed fallback is nonempty. -/
theorem extractErrorMessage_ne_empty (e : ClerkError) (f : String) (hf : f ≠ "") :
    extractErrorMessage e f ≠ "" := by
  unfold extractErrorMessage
  exact jsOrString_ne_empty _ _ (jsOrString_ne_empty _ _ hf)

/-! ### Claims -/

/-- C4: validation attaches an error to the confirmPassword field if and
only if confirmPassword differs from password, regardless of all other
field rules (the `.refine` runs even when a field check failed). -/
theorem confirmPassword_error_iff_mismatch (d : FormData) :
    (∃ i ∈ formIssuesWithEmail d, i.path = ["confirmPassword"]) ↔
      d.confirmPassword ≠ d.password := by
  constructor
  · rintro ⟨i, hi, hp⟩
    rcases path_of_mem_formIssues d i hi with h | h | h | ⟨_, h⟩ | h
    · rw [hp] at h; simp at h
    · rw [hp] at h; simp at h
    · rw [hp] at h; simp at h
    · exact fun heq => h heq.symm
    · rw [hp] at h; simp at h
  · intro hne
    refine ⟨⟨["confirmPassword"], "Passwords do not match"⟩, ?_, rfl⟩
    unfold formIssuesWithEmail
    have : d.password ≠ d.confirmPassword := fun heq => hne heq.symm
    simp [this]

/-- C5: password validation succeeds iff the length is in [8,12] and the
password contains at least one lowercase letter, one uppercase letter,
one digit and one character of the fixed special set; omitting any one
class (or violating the length bound) fails validation. -/
theorem password_validation_iff_classes (s : String) :
    passwordIssues s = [] ↔
      ((8 ≤ s.length ∧ s.length ≤ 12)
        ∧ s.toList.any Char.isLower = true
        ∧ s.toList.any Char.isUpper = true
        ∧ s.toList.any Char.isDigit = true
        ∧ s.toList.any isSpecialChar = true) := by
  unfold passwordIssues
  split_ifs with h1 h2 h3 h4 <;>
    simp_all [charLengthIssues_eq_nil, oneLowercaseIssues_eq_nil, oneUppercaseIssues_eq_nil,
      oneNumberIssues_eq_nil, oneSpecialIssues_eq_nil]

/-- C6: verification-code validation succeeds iff the input has exactly 6
characters; in particular "123456" passes while "12345" and "1234567"
fail. -/
theorem verification_code_length_iff :
    (∀ s : String, verificationIssues s = [] ↔ s.length = 6)
      ∧ verificationIssues "123456" = []
      ∧ verificationIssues "12345" ≠ []
      ∧ verificationIssues "1234567" ≠ [] := by
  refine ⟨fun s => ?_, by decide, by decide, by decide⟩
  unfold verificationIssues
  split_ifs with h <;> simp [h]

/-- C2: whenever the in-flight flag `isCreating` is set, the signup
submit button is disabled (whatever the form validity), and whenever
`isVerifying` is set, the verification submit button is disabled, so the
corresponding call cannot be re-entered before it resolves. -/
theorem inflight_submit_disabled :
    (∀ isValid : Bool, signupSubmitDisabled isValid true = true)
      ∧ verifySubmitDisabled true = true := by
  refine ⟨fun v => ?_, rfl⟩
  cases v <;> rfl

/-- C3: while the collaborator is not loaded (or the signUp object is
unavailable), `signup` and `verify` issue no collaborator call and return
an explicit failure result with an error message, rather than throwing or
returning nothing. -/
theorem not_loaded_noop_failure :
    ∀ (d : FormData) (code : String) (c : Collaborator),
      (∀ avail : Bool,
        signup false avail d c = ({ success := false, error := some "Clerk not loaded" }, []))
        ∧ signup true false d c = ({ success := false, error := some "Clerk not loaded" }, [])
        ∧ (∀ avail : Bool,
          verify false avail code c = ({ success := false, error := some "Clerk not loaded" }, []))
        ∧ verify true false code c = ({ success := false, error := some "Clerk not loaded" }, []) :=
  fun _ _ _ => ⟨fun _ => rfl, rfl, fun _ => rfl, rfl⟩

/-- C1: submitting a valid signup input from the Ready state, when the
create call resolves with status `missing_requirements`, moves the state
machine to `VERIFY_EMAIL` (AwaitingVerification) and issues the
prepare-verification call; when it resolves with status `complete`, it
moves to `DONE` (Done) and issues the session-activation call. -/
theorem signup_status_transitions (d : FormData) (c : Collaborator) (r : SignUpResource)
    (hval : formIssuesWithEmail d = [])
    (hc : c.createOutcome = .ok r) :
    (r.status = "missing_requirements" → c.prepareOutcome = .ok () →
      onSignup (signup true true d c).1 = ⟨.VERIFY_EMAIL, none⟩
        ∧ ClerkCall.prepareEmailAddressVerification "email_code" ∈ (signup true true d c).2)
      ∧ (r.status = "complete" → c.setActiveOutcome = .ok () →
        onSignup (signup true true d c).1 = ⟨.DONE, none⟩
          ∧ ClerkCall.setActive r.createdSessionId ∈ (signup true true d c).2) := by
  constructor
  · intro hs hp
    simp [signup, hc, hs, hp, onSignup, jsTruthy]
  · intro hs hsa
    have hne : r.status ≠ "missing_requirements" := by simp [hs]
    simp [signup, hc, hs, hne, hsa, onSignup, jsTruthy]

/-- Witness for C1 at a concrete valid input and collaborator. -/
theorem signup_status_transitions_witness :
    onSignup (signup true true ⟨"test@example.com", "testingUser", "aA1!aA1!", "aA1!aA1!", true⟩
        ⟨.ok ⟨"missing_requirements", none⟩, .ok (), .ok ⟨"", none⟩, .ok ()⟩).1
      = ⟨.VERIFY_EMAIL, none⟩
      ∧ ClerkCall.prepareEmailAddressVerification "email_code"
        ∈ (signup true true ⟨"test@example.com", "testingUser", "aA1!aA1!", "aA1!aA1!", true⟩
            ⟨.ok ⟨"missing_requirements", none⟩, .ok (), .ok ⟨"", none⟩, .ok ()⟩).2 :=
  (signup_status_transitions
    ⟨"test@example.com", "testingUser", "aA1!aA1!", "aA1!aA1!", true⟩
    ⟨.ok ⟨"missing_requirements", none⟩, .ok (), .ok ⟨"", none⟩, .ok ()⟩
    ⟨"missing_requirements", none⟩ (by decide) rfl).1 rfl rfl

/-- C7: submitting a valid verification input from AwaitingVerification,
when the attempt call resolves with status `complete` (and session
activation succeeds), moves the state machine to `DONE` and issues the
session-activation call; any other resolved status, a rejection of the
attempt call, or a rejection of the activation call, moves it to `ERROR`
with non-empty error text. -/
theorem verification_transitions (code : String) (c : Collaborator) (r : SignUpResource)
    (hval : verificationIssues code = []) :
    (c.attemptOutcome = .ok r → r.status = "complete" → c.setActiveOutcome = .ok () →
      onVerification (verify true true code c).1 = ⟨.DONE, none⟩
        ∧ ClerkCall.setActive r.createdSessionId ∈ (verify true true code c).2)
      ∧ (c.attemptOutcome = .ok r → r.status ≠ "complete" →
        (onVerification (verify true true code c).1).state = .ERROR
          ∧ ∃ m, (onVerification (verify true true code c).1).error = some m ∧ m ≠ "")
      ∧ (∀ e, c.attemptOutcome = .thrown e →
        (onVerification (verify true true code c).1).state = .ERROR
          ∧ ∃ m, (onVerification (verify true true code c).1).error = some m ∧ m ≠ "")
      ∧ (∀ e, c.attemptOutcome = .ok r → r.status = "complete" →
        c.setActiveOutcome = .thrown e →
        (onVerification (verify true true code c).1).state = .ERROR
          ∧ ∃ m, (onVerification (verify true true code c).1).error = some m ∧ m ≠ "") := by
  refine ⟨?_, ?_, ?_, ?_⟩
  · intro ha hs hsa
    simp [verify, ha, hs, hsa, onVerification]
  · intro ha hs
    refine ⟨by simp [verify, ha, hs, onVerification], "Verification failed", ?_, by decide⟩
    simp [verify, ha, hs, onVerification]
  · intro e he
    refine ⟨by simp [verify, he, onVerification],
      extractErrorMessage e "Verification failed", ?_,
      extractErrorMessage_ne_empty e _ (by decide)⟩
    simp [verify, he, onVerification]
  · intro e ha hs hsa
    refine ⟨by simp [verify, ha, hs, hsa, onVerification],
      extractErrorMessage e "Verification failed", ?_,
      extractErrorMessage_ne_empty e _ (by decide)⟩
    simp [verify, ha, hs, hsa, onVerification]

/-- Witness for C7 at a concrete valid code and collaborator. -/
theorem verification_transitions_witness :
    onVerification (verify true true "123456"
        ⟨.ok ⟨"", none⟩, .ok (), .ok ⟨"complete", some "sess_1"⟩, .ok ()⟩).1
      = ⟨.DONE, none⟩
      ∧ ClerkCall.setActive (some "sess_1")
        ∈ (verify true true "123456"
            ⟨.ok ⟨"", none⟩, .ok (), .ok ⟨"complete", some "sess_1"⟩, .ok ()⟩).2 :=
  (verification_transitions "123456"
    ⟨.ok ⟨"", none⟩, .ok (), .ok ⟨"complete", some "sess_1"⟩, .ok ()⟩
    ⟨"complete", some "sess_1"⟩ (by decide)).1 rfl rfl rfl

/-- C8: a create call resolving with a status that is neither `complete`
nor `missing_requirements` yields a failure result carrying the generic
message `Unexpected signup status`, and the state machine enters
`ERROR`. -/
theorem unexpected_status_error (d : FormData) (c : Collaborator) (r : SignUpResource)
    (hc : c.createOutcome = .ok r)
    (h1 : r.status ≠ "missing_requirements") (h2 : r.status ≠ "complete") :
    (signup true true d c).1
      = { success := false, error := some "Unexpected signup status" }
      ∧ onSignup (signup true true d c).1 = ⟨.ERROR, some "Unexpected signup status"⟩ := by
  have h : (signup true true d c).1
      = { success := false, error := some "Unexpected signup status" } := by
    simp [signup, hc, h1, h2]
  exact ⟨h, by rw [h]; rfl⟩

/-- Witness for C8 at a concrete collaborator reporting an abandoned
signup. -/
theorem unexpected_status_error_witness :
    (signup true true ⟨"test@example.com", "testingUser", "aA1!aA1!", "aA1!aA1!", true⟩
        ⟨.ok ⟨"abandoned", none⟩, .ok (), .ok ⟨"", none⟩, .ok ()⟩).1
      = { success := false, error := some "Unexpected signup status" }
      ∧ onSignup (signup true true ⟨"test@example.com", "testingUser", "aA1!aA1!", "aA1!aA1!", true⟩
          ⟨.ok ⟨"abandoned", none⟩, .ok (), .ok ⟨"", none⟩, .ok ()⟩).1
        = ⟨.ERROR, some "Unexpected signup status"⟩ :=
  unexpected_status_error
    ⟨"test@example.com", "testingUser", "aA1!aA1!", "aA1!aA1!", true⟩
    ⟨.ok ⟨"abandoned", none⟩, .ok (), .ok ⟨"", none⟩, .ok ()⟩
    ⟨"abandoned", none⟩ rfl (by decide) (by decide)

/-- C9: when a collaborator call rejects, the resulting error text is the
fallback chain value: the first structured field error's long message
when present and nonempty, otherwise the exception's own message when
present and nonempty, otherwise the operation's fixed fallback string. -/
theorem error_message_fallback_chain (d : FormData) (code : String) (c : Collaborator)
    (e : ClerkError) :
    (c.createOutcome = .thrown e →
      (signup true true d c).1.success = false
        ∧ (signup true true d c).1.error = some (extractErrorMessage e "Signup failed"))
      ∧ (c.attemptOutcome = .thrown e →
        (verify true true code c).1.success = false
          ∧ (verify true true code c).1.error
            = some (extractErrorMessage e "Verification failed"))
      ∧ (∀ m, firstLongMessage e = some m → m ≠ "" → ∀ f, extractErrorMessage e f = m)
      ∧ ((firstLongMessage e = none ∨ firstLongMessage e = some "") →
        ∀ m, e.message = some m → m ≠ "" → ∀ f, extractErrorMessage e f = m)
      ∧ ((firstLongMessage e = none ∨ firstLongMessage e = some "") →
        (e.message = none ∨ e.message = some "") → ∀ f, extractErrorMessage e f = f) := by
  refine ⟨?_, ?_, ?_, ?_, ?_⟩
  · intro he
    constructor <;> simp [signup, he]
  · intro he
    constructor <;> simp [verify, he]
  · intro m hm hne f
    simp [extractErrorMessage, jsOrString, hm, hne]
  · rintro (hl | hl) m hm hne f <;>
      simp [extractErrorMessage, jsOrString, hl, hm, hne]
  · rintro (hl | hl) (hm | hm) f <;>
      simp [extractErrorMessage, jsOrString, hl, hm]

/-- Witness for C9: a rejection with a structured long message surfaces
that message. -/
theorem error_message_fallback_chain_witness :
    (signup true true ⟨"test@example.com", "testingUser", "aA1!aA1!", "aA1!aA1!", true⟩
        ⟨.thrown ⟨some [⟨some "That username is taken."⟩], some "Request failed"⟩,
          .ok (), .ok ⟨"", none⟩, .ok ()⟩).1.success = false
      ∧ (signup true true ⟨"test@example.com", "testingUser", "aA1!aA1!", "aA1!aA1!", true⟩
          ⟨.thrown ⟨some [⟨some "That username is taken."⟩], some "Request failed"⟩,
            .ok (), .ok ⟨"", none⟩, .ok ()⟩).1.error
        = some (extractErrorMessage
            ⟨some [⟨some "That username is taken."⟩], some "Request failed"⟩ "Signup failed")
      ∧ extractErrorMessage
          ⟨some [⟨some "That username is taken."⟩], some "Request failed"⟩ "Signup failed"
        = "That username is taken." :=
  ⟨((error_message_fallback_chain
      ⟨"test@example.com", "testingUser", "aA1!aA1!", "aA1!aA1!", true⟩ "123456"
      ⟨.thrown ⟨some [⟨some "That username is taken."⟩], some "Request failed"⟩,
        .ok (), .ok ⟨"", none⟩, .ok ()⟩
      ⟨some [⟨some "That username is taken."⟩], some "Request failed"⟩).1 rfl).1,
    ((error_message_fallback_chain
      ⟨"test@example.com", "testingUser", "aA1!aA1!", "aA1!aA1!", true⟩ "123456"
      ⟨.thrown ⟨some [⟨some "That username is taken."⟩], some "Request failed"⟩,
        .ok (), .ok ⟨"", none⟩, .ok ()⟩
      ⟨some [⟨some "That username is taken."⟩], some "Request failed"⟩).1 rfl).2,
    by decide⟩

/-- Each generated character lies in the generator's alphabet. -/
theorem generated_char_mem (n : Nat) :
    characters.contains (characters.getD (n % characters.length) '0') = true := by
  have hlt : n % characters.length < characters.length :=
    Nat.mod_lt _ (by decide)
  rw [List.getD_eq_getElem characters '0' hlt]
  simp [List.getElem_mem hlt]

/-- C10: `generateRandomPassword` always yields exactly 12 characters of
its fixed 68-character alphabet, yet some of its possible outputs (a
string of 12 digits; a string whose only non-alphanumeric character is
the tilde, which the validator's special set lacks) fail the password
schema, so the default password and confirmPassword installed by
`useSignupFormWithEmail` are not guaranteed to pass validation. -/
theorem generateRandomPassword_properties :
    characters.length = 68
      ∧ (∀ xs : Fin 12 → Nat, (generateRandomPassword xs).length = 12)
      ∧ (∀ xs : Fin 12 → Nat,
        ((generateRandomPassword xs).toList.all (fun ch => characters.contains ch)) = true)
      ∧ (∃ xs : Fin 12 → Nat,
        ((generateRandomPassword xs).toList.all Char.isDigit) = true
          ∧ passwordIssues (generateRandomPassword xs) ≠ [])
      ∧ (∃ xs : Fin 12 → Nat,
        ((generateRandomPassword xs).toList.all
            (fun ch => ch.isAlphanum || ch = Char.ofNat 126)) = true
          ∧ ((generateRandomPassword xs).toList.contains (Char.ofNat 126)) = true
          ∧ passwordIssues (generateRandomPassword xs) ≠ [])
      ∧ (∃ xs : Fin 12 → Nat,
        (signupFormDefaults xs).confirmPassword = (signupFormDefaults xs).password
          ∧ passwordIssues ((signupFormDefaults xs).password) ≠ []) := by
  refine ⟨by decide, fun xs => ?_, fun xs => ?_, ?_, ?_, ?_⟩
  · simp [generateRandomPassword, String.length]
  · rw [List.all_eq_true]
    intro ch hch
    simp only [generateRandomPassword, String.toList] at hch
    rcases List.mem_map.mp hch with ⟨i, _, rfl⟩
    exact generated_char_mem (xs i)
  · exact ⟨fun _ => 0, by decide, by decide⟩
  · exact ⟨fun i => [36, 10, 1, 62, 36, 10, 1, 62, 36, 10, 1, 62].getD i.val 0,
      by decide, by decide, by decide⟩
  · exact ⟨fun _ => 0, rfl, by decide⟩

end Clerk
